import Mathlib

/-!
Verification development for the xaudio2py concurrency-and-session layer.

Shallow embedding of:
  * `utils/validate.py`          — volume/pan clamping
  * `concurrency/worker.py`      — `BackendWorker` (command dispatcher)
  * `core/registry.py`           — `PlaybackRegistry`
  * `services/playback.py`       — `PlaybackService`
  * `services/engine_lifecycle.py` — `EngineLifecycleService`

Python floats are modelled as rationals, opaque Python objects (exception
objects, voices, handle ids) as values of a type parameter or `Nat`.
Outcomes of external calls (the native backend, the worker thread's
scheduling) enter as explicit parameters: an operation that may raise is
an `Except` value, and timing facts (whether the result event fired
within the caller's timeout, whether the ready event fired within 5s)
are explicit `Bool` inputs.
-/

namespace XAudio2Py

/-! ### utils/validate.py -/

/-- `validate_volume`: clamp volume to `[0, 1]` (never raises). -/
def validate_volume (volume : ℚ) : ℚ :=
  if volume < 0 then 0
  else if volume > 1 then 1
  else volume

/-- `validate_pan`: clamp pan to `[-1, 1]` (never raises). -/
def validate_pan (pan : ℚ) : ℚ :=
  if pan < -1 then -1
  else if pan > 1 then 1
  else pan

/-! ### concurrency/worker.py — the command dispatcher (`BackendWorker`) -/

/-- Errors `BackendWorker.execute` can raise itself, or re-raise from the
    executed operation.  `notStarted` is `RuntimeError("Worker thread not
    initialized")`, `timeout` is `TimeoutError`; `op e` re-raises the
    exception object `e` recorded in `cmd.error`. -/
inductive DispatchErr (ε : Type) where
  | notStarted
  | timeout
  | op (e : ε)
  deriving DecidableEq

/-- Mutable observable state of a worker (`_thread`/`_initialized`).
    `threadAlive` models `self._thread is not None and self._thread.is_alive()`. -/
structure WorkerState where
  threadAlive : Bool
  initialized : Bool
  deriving DecidableEq

/-- State of a `BackendWorker` that was constructed but never started:
    `_thread is None`, `_initialized = False`. -/
def neverStarted : WorkerState := { threadAlive := false, initialized := false }

/-- The fixed bound of `self._ready_event.wait(timeout=5.0)` in `start`. -/
def startReadyTimeoutSeconds : ℚ := 5

/-- Result slot of a `Command` after the worker loop has run it:
    `result`/`error` as filled in by the `try/except` around `cmd.func()`,
    `eventSet` records `cmd.result_event.set()` in the `finally` block. -/
structure CmdSlot (ε α : Type) where
  result : Option α
  error : Option ε
  eventSet : Bool
  deriving DecidableEq

/-- One iteration body of `_worker_loop` on a dequeued command:
    `try: cmd.result = cmd.func() except Exception as e: cmd.error = e
    finally: cmd.result_event.set()`.  The operation `op` is the outcome
    of calling `cmd.func()`. -/
def execCmd {ε α : Type} (op : Except ε α) : CmdSlot ε α :=
  match op with
  | .ok v => { result := some v, error := none, eventSet := true }
  | .error e => { result := none, error := some e, eventSet := true }

/-- An entry of the worker's queue: a real command, or the `None` sentinel
    enqueued by `stop()`. -/
inductive QItem (ε α : Type) where
  | sentinel
  | cmd (op : Except ε α)

/-- `_worker_loop`: dequeue items in FIFO order; exit if the stop event is
    set or on the sentinel; otherwise run the command (errors are caught
    into the slot) and continue with the rest of the queue.  `stopSet`
    models `self._stop_event.is_set()`. Returns the filled result slots
    in processing order. -/
def worker_loop {ε α : Type} (stopSet : Bool) : List (QItem ε α) → List (CmdSlot ε α)
  | [] => []
  | item :: rest =>
    if stopSet then []
    else
      match item with
      | .sentinel => []
      | .cmd op => execCmd op :: worker_loop stopSet rest

/-- `BackendWorker.execute(func, timeout)`.
    Control flow of the source: raise `notStarted` if `not self._initialized`
    (before `self._queue.put(cmd)`); enqueue; wait on `cmd.result_event`
    with the caller's timeout (`completedInTime` says whether the worker
    filled the slot in time); raise `TimeoutError` on timeout; re-raise
    `cmd.error` if set; else return `cmd.result`.  The second component
    reports whether the command was enqueued. -/
def execute {ε α : Type} (initialized : Bool) (op : Except ε α)
    (completedInTime : Bool) : Except (DispatchErr ε) α × Bool :=
  if !initialized then (.error .notStarted, false)
  else if !completedInTime then (.error .timeout, true)
  else
    match op with
    | .error e => (.error (.op e), true)
    | .ok v => (.ok v, true)

/-- Errors `BackendWorker.start` can raise: `startupTimeout` is the
    `RuntimeError("Worker thread failed to start within timeout")` when the
    ready event does not fire within 5s; `initFailed e` is an error raised
    by `backend.initialize` and propagated through `self.execute`. -/
inductive StartErr (ε : Type) where
  | startupTimeout
  | initFailed (e : ε)
  deriving DecidableEq

/-- `BackendWorker.start()`: return immediately if the thread is already
    alive; otherwise clear events, set `_initialized = False`, spawn the
    thread, wait up to 5s for the ready event (`readySignaled`); on
    timeout raise `startupTimeout`; then set `_initialized = True` and run
    `backend.initialize` through `self.execute` (outcome `initOutcome`),
    propagating its error.  Returns (raised error if any, resulting state,
    whether `backend.initialize` was dispatched). -/
def start {ε : Type} (s : WorkerState) (readySignaled : Bool)
    (initOutcome : Except ε Unit) :
    Option (StartErr ε) × WorkerState × Bool :=
  if s.threadAlive then (none, s, false)
  else if !readySignaled then
    (some .startupTimeout, { threadAlive := true, initialized := false }, false)
  else
    match initOutcome with
    | .error e => (some (.initFailed e), { threadAlive := true, initialized := true }, true)
    | .ok _ => (none, { threadAlive := true, initialized := true }, true)

/-- The primitive steps `BackendWorker.stop()` performs, in order. -/
inductive StopAction where
  | clearInitialized
  | setStopEvent
  | putSentinel
  | joinThread
  deriving DecidableEq

/-- `BackendWorker.stop()`: if the thread is absent or dead, just clear
    `_initialized`; otherwise clear `_initialized` FIRST, then set the stop
    event, enqueue the sentinel, and join (after which `_thread` is set to
    `None` on every path).  Returns the resulting state and the ordered
    action trace. -/
def stop (s : WorkerState) : WorkerState × List StopAction :=
  if !s.threadAlive then
    ({ s with initialized := false }, [.clearInitialized])
  else
    ({ threadAlive := false, initialized := false },
     [.clearInitialized, .setStopEvent, .putSentinel, .joinThread])

/-! ### core/models.py, api/sound.py — data model -/

/-- `PlaybackState` enum from `core/models.py`. -/
inductive PlaybackState where
  | stopped
  | playing
  | paused
  deriving DecidableEq

/-- A `PlaybackHandle.id` (a uuid4 string in the source, an opaque id here). -/
abbrev HandleId := Nat

/-- An opaque native voice object produced by `backend.create_source_voice`. -/
abbrev VoiceId := Nat

/-- `VoiceParams` from `core/models.py` (floats as rationals). -/
structure VoiceParams where
  volume : ℚ
  pan : ℚ
  loop : Bool
  deriving DecidableEq

/-- A `Sound` (`api/sound.py`).  The playback-service logic reads only
    `sound.duration` (= `data.duration_seconds`); the format and the PCM
    bytes flow opaquely to the backend and are not inspected here. -/
structure Sound where
  duration : ℚ
  deriving DecidableEq

/-! ### core/registry.py — `PlaybackRegistry` -/

/-- `PlaybackInfo` record stored in the registry. -/
structure PlaybackInfo where
  handleId : HandleId
  voice : VoiceId
  sound : Sound
  params : VoiceParams
  startTime : ℚ
  deriving DecidableEq

/-- The registry's `_playbacks: Dict[str, PlaybackInfo]`, as an association
    list keyed by `handle.id` (keys unique, insertion-ordered like a dict). -/
abbrev Registry := List (HandleId × PlaybackInfo)

/-- `PlaybackRegistry.get` / `dict.get(handle.id)`. -/
def registryGet (r : Registry) (h : HandleId) : Option PlaybackInfo :=
  match r with
  | [] => none
  | (k, i) :: rest => if k = h then some i else registryGet rest h

/-- `PlaybackRegistry.register` / `self._playbacks[handle.id] = info`:
    dict assignment overwrites an existing key, else appends. -/
def registryRegister (r : Registry) (h : HandleId) (i : PlaybackInfo) : Registry :=
  match r with
  | [] => [(h, i)]
  | (k, j) :: rest =>
    if k = h then (h, i) :: rest else (k, j) :: registryRegister rest h i

/-- `PlaybackRegistry.remove` / `self._playbacks.pop(handle.id, None)`. -/
def registryRemove (r : Registry) (h : HandleId) : Registry :=
  match r with
  | [] => []
  | (k, i) :: rest => if k = h then rest else (k, i) :: registryRemove rest h

/-! ### services/playback.py — `PlaybackService`

Each method is parameterized by the outcome of the call it submits to the
worker (`worker.execute(...)`): `Except ε β`, where an `error e` is any
exception that `execute` raised to the service (a backend/voice error
re-raised unchanged, or the dispatcher's own NotStarted/Timeout error).
The service propagates such an exception to its own caller unchanged. -/

/-- Errors a `PlaybackService` method raises: `playbackNotFound` is
    `PlaybackNotFoundError`, `engineNotStarted` is `EngineNotStartedError`
    (raised by the `AudioEngine` facade's started-guard), and `raisedBy e`
    propagates the exception `e` coming out of `worker.execute` unchanged. -/
inductive SvcErr (ε : Type) where
  | engineNotStarted
  | playbackNotFound
  | raisedBy (e : ε)
  deriving DecidableEq

/-- `PlaybackService.start_playback(sound, volume, pan, loop)`:
    clamp volume and pan, build `VoiceParams`, dispatch
    `backend.create_source_voice(format, data, params)` (outcome
    `createOutcome`), and only on success mint `newHandle` (a fresh uuid)
    and register the record with `start_time = now`.  Returns
    (result, resulting registry, the params dispatched to the backend). -/
def start_playback {ε : Type} (reg : Registry) (sound : Sound)
    (volume pan : ℚ) (loop : Bool) (createOutcome : Except ε VoiceId)
    (newHandle : HandleId) (now : ℚ) :
    Except (SvcErr ε) HandleId × Registry × VoiceParams :=
  let v := validate_volume volume
  let p := validate_pan pan
  let params : VoiceParams := { volume := v, pan := p, loop := loop }
  match createOutcome with
  | .error e => (.error (.raisedBy e), reg, params)
  | .ok voice =>
    (.ok newHandle,
     registryRegister reg newHandle
       { handleId := newHandle, voice := voice, sound := sound,
         params := params, startTime := now },
     params)

/-- `PlaybackService.stop_playback(handle)`: look the record up, raise
    `PlaybackNotFoundError` if absent; dispatch `voice.stop()` (outcome
    `stopOutcome`); remove the record from the registry only after the
    stop call returned successfully. -/
def stop_playback {ε : Type} (reg : Registry) (h : HandleId)
    (stopOutcome : Except ε Unit) : Except (SvcErr ε) Unit × Registry :=
  match registryGet reg h with
  | none => (.error .playbackNotFound, reg)
  | some _ =>
    match stopOutcome with
    | .error e => (.error (.raisedBy e), reg)
    | .ok _ => (.ok (), registryRemove reg h)

/-- `PlaybackService.set_volume(handle, volume)`: lookup-or-fail, clamp,
    dispatch `voice.set_volume(clamped)` (outcome `setOutcome`), and update
    `params.volume` in the record only after the call returned.  The third
    component is the value actually dispatched to the voice (`none` when no
    native call was made). -/
def set_volume {ε : Type} (reg : Registry) (h : HandleId) (volume : ℚ)
    (setOutcome : Except ε Unit) :
    Except (SvcErr ε) Unit × Registry × Option ℚ :=
  match registryGet reg h with
  | none => (.error .playbackNotFound, reg, none)
  | some info =>
    let v := validate_volume volume
    match setOutcome with
    | .error e => (.error (.raisedBy e), reg, some v)
    | .ok _ =>
      (.ok (),
       registryRegister reg h { info with params := { info.params with volume := v } },
       some v)

/-- `PlaybackService.set_pan(handle, pan)`: mirror of `set_volume`. -/
def set_pan {ε : Type} (reg : Registry) (h : HandleId) (pan : ℚ)
    (setOutcome : Except ε Unit) :
    Except (SvcErr ε) Unit × Registry × Option ℚ :=
  match registryGet reg h with
  | none => (.error .playbackNotFound, reg, none)
  | some info =>
    let p := validate_pan pan
    match setOutcome with
    | .error e => (.error (.raisedBy e), reg, some p)
    | .ok _ =>
      (.ok (),
       registryRegister reg h { info with params := { info.params with pan := p } },
       some p)

/-- `PlaybackService.is_playing(handle)`: absent handle returns `False`
    without raising and without dispatching any native call; otherwise
    dispatch `voice.get_state()` (outcome `stateOutcome`, propagated on
    error); then, for a `PLAYING` non-looping session whose elapsed
    monotonic time (`now - start_time`) has reached `sound.duration`,
    return `False`; else return whether the state is `PLAYING`.  The
    second component records whether a native call was dispatched. -/
def is_playing {ε : Type} (reg : Registry) (h : HandleId)
    (stateOutcome : Except ε PlaybackState) (now : ℚ) :
    Except (SvcErr ε) Bool × Bool :=
  match registryGet reg h with
  | none => (.ok false, false)
  | some info =>
    match stateOutcome with
    | .error e => (.error (.raisedBy e), true)
    | .ok st =>
      if st = PlaybackState.playing ∧ info.params.loop = false then
        if info.sound.duration ≤ now - info.startTime then (.ok false, true)
        else (.ok (decide (st = PlaybackState.playing)), true)
      else (.ok (decide (st = PlaybackState.playing)), true)

/-- `AudioEngine.is_playing(handle)` (`api/engine.py`): guard
    `EngineNotStartedError` when the engine is not started, then the same
    logic as the service-level `is_playing`. -/
def engine_is_playing {ε : Type} (started : Bool) (reg : Registry) (h : HandleId)
    (stateOutcome : Except ε PlaybackState) (now : ℚ) :
    Except (SvcErr ε) Bool × Bool :=
  if !started then (.error .engineNotStarted, false)
  else is_playing reg h stateOutcome now

/-! ### services/engine_lifecycle.py — `EngineLifecycleService` -/

/-- Observable state of the lifecycle service: `_started` and whether
    `_worker` is not `None`. -/
structure LifecycleState where
  started : Bool
  hasWorker : Bool
  deriving DecidableEq

/-- The externally visible steps `shutdown()` performs on collaborators. -/
inductive ShutAction (ε : Type) where
  | backendShutdown (outcome : Except ε Unit)
  | workerStop
  deriving Repr

/-- `EngineLifecycleService.shutdown()`: if not started, return immediately
    (no-op); otherwise, when a worker exists, dispatch `backend.shutdown`
    (outcome caught and logged, never raised) and call `worker.stop()`
    (likewise caught), set `_worker = None`; finally `_started = False`.
    Returns the resulting state and the ordered trace of collaborator
    actions taken.  Total: `shutdown` never raises. -/
def shutdown {ε : Type} (s : LifecycleState) (backendShutdownOutcome : Except ε Unit) :
    LifecycleState × List (ShutAction ε) :=
  if !s.started then (s, [])
  else if s.hasWorker then
    ({ started := false, hasWorker := false },
     [.backendShutdown backendShutdownOutcome, .workerStop])
  else
    ({ started := false, hasWorker := false }, [])

/-- A concrete non-looping session record (1-second sound started at t=0)
    used to evaluate the service operations on explicit inputs. -/
def sampleInfo : PlaybackInfo :=
  { handleId := 0, voice := 0, sound := { duration := 1 },
    params := { volume := 1, pan := 0, loop := false }, startTime := 0 }

/-- A concrete looping session record used to evaluate the service
    operations on explicit inputs. -/
def sampleLoopInfo : PlaybackInfo :=
  { handleId := 0, voice := 0, sound := { duration := 1 },
    params := { volume := 1, pan := 0, loop := true }, startTime := 0 }

/-! ### Helper lemmas -/

theorem validate_volume_bounds (v : ℚ) :
    0 ≤ validate_volume v ∧ validate_volume v ≤ 1 := by
  unfold validate_volume
  split_ifs with h1 h2
  · norm_num
  · norm_num
  · push_neg at h1 h2
    exact ⟨h1, h2⟩

theorem validate_pan_bounds (p : ℚ) :
    -1 ≤ validate_pan p ∧ validate_pan p ≤ 1 := by
  unfold validate_pan
  split_ifs with h1 h2
  · norm_num
  · norm_num
  · push_neg at h1 h2
    exact ⟨h1, h2⟩

theorem registryGet_eq_none_of_not_mem (r : Registry) (h : HandleId)
    (hmem : h ∉ r.map Prod.fst) : registryGet r h = none := by
  induction r with
  | nil => rfl
  | cons p rest ih =>
    obtain ⟨k, i⟩ := p
    rw [List.map_cons, List.mem_cons] at hmem
    push_neg at hmem
    rw [registryGet, if_neg (fun hk => hmem.1 hk.symm)]
    exact ih hmem.2

theorem registryGet_remove_self (r : Registry) (h : HandleId)
    (hnodup : (r.map Prod.fst).Nodup) :
    registryGet (registryRemove r h) h = none := by
  induction r with
  | nil => rfl
  | cons p rest ih =>
    obtain ⟨k, i⟩ := p
    rw [List.map_cons, List.nodup_cons] at hnodup
    by_cases hk : k = h
    · subst hk
      rw [registryRemove, if_pos rfl]
      exact registryGet_eq_none_of_not_mem rest k hnodup.1
    · rw [registryRemove, if_neg hk, registryGet, if_neg hk]
      exact ih hnodup.2

theorem registryGet_register_self (r : Registry) (h : HandleId) (i : PlaybackInfo) :
    registryGet (registryRegister r h i) h = some i := by
  induction r with
  | nil => simp [registryRegister, registryGet]
  | cons p rest ih =>
    obtain ⟨k, j⟩ := p
    by_cases hk : k = h
    · rw [registryRegister, if_pos hk, registryGet, if_pos rfl]
    · rw [registryRegister, if_neg hk, registryGet, if_neg hk]
      exact ih

theorem registryGet_register_other (r : Registry) (h h' : HandleId)
    (i : PlaybackInfo) (hne : h' ≠ h) :
    registryGet (registryRegister r h i) h' = registryGet r h' := by
  induction r with
  | nil =>
    have hne2 : ¬ h = h' := fun hk => hne hk.symm
    simp [registryRegister, registryGet, hne2]
  | cons p rest ih =>
    obtain ⟨k, j⟩ := p
    by_cases hk : k = h
    · subst hk
      rw [registryRegister, if_pos rfl, registryGet, registryGet,
        if_neg (fun hk => hne hk.symm), if_neg (fun hk => hne hk.symm)]
    · rw [registryRegister, if_neg hk, registryGet, registryGet]
      by_cases hk2 : k = h'
      · rw [if_pos hk2, if_pos hk2]
      · rw [if_neg hk2, if_neg hk2]
        exact ih

theorem registryRegister_length (r : Registry) (h : HandleId) (i : PlaybackInfo)
    (hfresh : registryGet r h = none) :
    (registryRegister r h i).length = r.length + 1 := by
  induction r with
  | nil => rfl
  | cons p rest ih =>
    obtain ⟨k, j⟩ := p
    by_cases hk : k = h
    · rw [registryGet, if_pos hk] at hfresh
      exact absurd hfresh (by simp)
    · rw [registryGet, if_neg hk] at hfresh
      rw [registryRegister, if_neg hk, List.length_cons, List.length_cons, ih hfresh]

theorem worker_loop_length {ε α : Type} (q : List (QItem ε α))
    (hq : ∀ i ∈ q, i ≠ QItem.sentinel) :
    (worker_loop false q).length = q.length := by
  induction q with
  | nil => rfl
  | cons item rest ih =>
    cases item with
    | sentinel => exact absurd rfl (hq _ (List.mem_cons_self _ _))
    | cmd op =>
      simp only [worker_loop, Bool.false_eq_true, if_false, List.length_cons]
      exact congrArg (· + 1) (ih fun i hi => hq i (List.mem_cons_of_mem _ hi))

/-! ### Claim theorems -/

/-- C1: for every operation `op` submitted via the dispatcher's `execute`:
    on a never-started dispatcher the call fails with the NotStarted error
    and `op` is not enqueued; if `op` raises an error, that exact error
    object is re-raised to the caller unchanged; if `op` completes without
    error, `execute` returns its result; and if the wait exceeds the
    caller's timeout, `execute` fails with the Timeout error while the
    enqueued `op` still runs to completion in the worker
    (its result slot gets filled and its event set). -/
theorem claim_C1_execute_contract {ε α : Type} (op : Except ε α) (e : ε)
    (v : α) (t : Bool) :
    execute neverStarted.initialized op t = (.error .notStarted, false) ∧
    execute true (Except.error e : Except ε α) true = (.error (.op e), true) ∧
    execute true (Except.ok v : Except ε α) true = (.ok v, true) ∧
    execute true op false = (.error .timeout, true) ∧
    (execCmd op).eventSet = true ∧
    ((execCmd op).result = (execute true op true).1.toOption ∧
      worker_loop false [QItem.cmd op] = [execCmd op]) := by
  refine ⟨rfl, rfl, rfl, rfl, ?_, ?_, rfl⟩
  · cases op <;> rfl
  · cases op <;> rfl

/-- C2: an operation that raises during execution in the worker loop is
    caught, its exception is recorded in that command's error slot (and the
    result event is set), and the loop keeps processing the rest of the
    queue exactly as before; on a queue of real commands (no sentinel, no
    stop signal) every dequeued command is executed — the loop never
    terminates because an operation threw. -/
theorem claim_C2_worker_loop_survives_errors {ε α : Type} (e : ε)
    (rest q : List (QItem ε α)) (hq : ∀ i ∈ q, i ≠ QItem.sentinel) :
    worker_loop false (QItem.cmd (Except.error e) :: rest) =
      { result := none, error := some e, eventSet := true } :: worker_loop false rest ∧
    (worker_loop false q).length = q.length := by
  constructor
  · rfl
  · exact worker_loop_length q hq

/-- C2 witness: a concrete queue where the first operation raises and the
    two following commands are still executed. -/
theorem claim_C2_worker_loop_survives_errors_witness :
    worker_loop false
        [QItem.cmd (Except.error 7), QItem.cmd (Except.ok 1), QItem.cmd (Except.ok 2)] =
      [{ result := none, error := some 7, eventSet := true },
       { result := some 1, error := none, eventSet := true },
       { result := some (2 : Nat), error := none, eventSet := (true : Bool) }] := by
  have h := claim_C2_worker_loop_survives_errors (α := Nat) 7
    [QItem.cmd (Except.ok 1), QItem.cmd (Except.ok 2)]
    [QItem.cmd (Except.error 7), QItem.cmd (Except.ok 1), QItem.cmd (Except.ok 2)]
    (by
      intro i hi
      rcases List.mem_cons.mp hi with rfl | hi
      · intro hqi; exact QItem.noConfusion hqi
      rcases List.mem_cons.mp hi with rfl | hi
      · intro hqi; exact QItem.noConfusion hqi
      rcases List.mem_cons.mp hi with rfl | hi
      · intro hqi; exact QItem.noConfusion hqi
      · exact absurd hi (List.not_mem_nil i))
  rw [h.1]
  rfl

/-- C3: the dispatcher's `start()` is idempotent when the worker thread is
    already running (returns without re-running initialization and without
    touching the state); if readiness is not signaled within the fixed
    5-second bound it fails with the startup-timeout error and
    `backend.initialize` is never dispatched; only after readiness does it
    run `backend.initialize` through the dispatcher, propagating an
    initialization error to the caller, and on success the worker is
    running and initialized. -/
theorem claim_C3_start_contract {ε : Type} (s : WorkerState) (e : ε)
    (readySignaled : Bool) (initOutcome : Except ε Unit) :
    (s.threadAlive = true → start s readySignaled initOutcome = (none, s, false)) ∧
    (s.threadAlive = false →
      start s false initOutcome =
        (some StartErr.startupTimeout, { threadAlive := true, initialized := false }, false)) ∧
    (s.threadAlive = false →
      start s true (Except.error e) =
        (some (StartErr.initFailed e), { threadAlive := true, initialized := true }, true)) ∧
    (s.threadAlive = false →
      start s true (Except.ok () : Except ε Unit) =
        (none, { threadAlive := true, initialized := true }, true)) ∧
    startReadyTimeoutSeconds = 5 := by
  refine ⟨?_, ?_, ?_, ?_, rfl⟩ <;> intro h <;> simp [start, h]

/-- C3 witness: the contract evaluated at concrete states (an alive worker
    with an erroring initializer; a fresh worker with ready signal /
    startup timeout / failing initialization). -/
theorem claim_C3_start_contract_witness :
    start { threadAlive := true, initialized := true } true (Except.error (3 : Nat))
      = (none, { threadAlive := true, initialized := true }, false) ∧
    start neverStarted false (Except.ok () : Except Nat Unit)
      = (some StartErr.startupTimeout, { threadAlive := true, initialized := false }, false) ∧
    start neverStarted true (Except.error (3 : Nat))
      = (some (StartErr.initFailed 3), { threadAlive := true, initialized := true }, true) ∧
    start neverStarted true (Except.ok () : Except Nat Unit)
      = (none, { threadAlive := true, initialized := true }, true) :=
  ⟨(claim_C3_start_contract { threadAlive := true, initialized := true } (3 : Nat)
      true (Except.error 3)).1 rfl,
   (claim_C3_start_contract neverStarted (3 : Nat) false (Except.ok ())).2.1 rfl,
   (claim_C3_start_contract neverStarted (3 : Nat) true (Except.error 3)).2.2.1 rfl,
   (claim_C3_start_contract neverStarted (3 : Nat) true (Except.ok ())).2.2.2.1 rfl⟩

/-- C10: after `stop()` returns, the initialized flag is cleared, so every
    subsequent `execute(op)` fails with the same NotStarted error as on a
    never-started dispatcher, without enqueuing `op`; the very first action
    of `stop()` is clearing the initialized flag, before the stop event is
    signaled or the sentinel enqueued; and only a successful new `start()`
    makes `execute` accept commands again. -/
theorem claim_C10_stop_disables_execute {ε α : Type} (s : WorkerState)
    (op : Except ε α) (t : Bool) (v : α) :
    execute (stop s).1.initialized op t = (.error .notStarted, false) ∧
    execute (stop s).1.initialized op t = execute neverStarted.initialized op t ∧
    ((stop s).2.head? = some StopAction.clearInitialized) ∧
    start (stop s).1 true (Except.ok () : Except ε Unit)
      = (none, { threadAlive := true, initialized := true }, true) ∧
    execute (start (stop s).1 true (Except.ok () : Except ε Unit)).2.1.initialized
        (Except.ok v : Except ε α) true = (.ok v, true) := by
  have hinit : (stop s).1.initialized = false := by
    unfold stop
    split <;> rfl
  have halive : (stop s).1.threadAlive = false := by
    unfold stop
    split
    · next hcond =>
      simp only [Bool.not_eq_true'] at hcond
      exact hcond
    · rfl
  refine ⟨?_, ?_, ?_, ?_, ?_⟩
  · rw [hinit]; rfl
  · rw [hinit]; rfl
  · unfold stop
    split <;> rfl
  · simp [start, halive]
  · simp [start, halive, execute]

/-- C4: `stop_playback(handle)` fails with the SessionNotFound error
    (`PlaybackNotFoundError`) when the handle is absent; when present, the
    record is removed only after the dispatched `voice.stop()` returns
    successfully — if the stop call raises, that error propagates and the
    registry is unchanged; after a successful stop the handle is gone, a
    second `stop_playback` raises SessionNotFound, and `is_playing` on the
    handle returns false. -/
theorem claim_C4_stop_playback {ε : Type} (reg : Registry) (h : HandleId)
    (info : PlaybackInfo) (e : ε) (o : Except ε Unit)
    (ps : Except ε PlaybackState) (now : ℚ)
    (hnodup : (reg.map Prod.fst).Nodup) :
    (registryGet reg h = none →
      stop_playback reg h o = (.error .playbackNotFound, reg)) ∧
    (registryGet reg h = some info →
      stop_playback reg h (Except.error e) = (.error (.raisedBy e), reg)) ∧
    (registryGet reg h = some info →
      stop_playback reg h (Except.ok () : Except ε Unit)
        = (.ok (), registryRemove reg h) ∧
      registryGet (registryRemove reg h) h = none ∧
      stop_playback (registryRemove reg h) h o
        = (.error .playbackNotFound, registryRemove reg h) ∧
      is_playing (registryRemove reg h) h ps now = (.ok false, false)) := by
  refine ⟨?_, ?_, ?_⟩
  · intro hget
    simp [stop_playback, hget]
  · intro hget
    simp [stop_playback, hget]
  · intro hget
    have hrem : registryGet (registryRemove reg h) h = none :=
      registryGet_remove_self reg h hnodup
    refine ⟨by simp [stop_playback, hget], hrem, by simp [stop_playback, hrem],
      by simp [is_playing, hrem]⟩

/-- C4 witness: the contract evaluated on a one-session registry. -/
theorem claim_C4_stop_playback_witness :
    stop_playback ([] : Registry) 0 (Except.ok () : Except Nat Unit)
      = (.error .playbackNotFound, []) ∧
    stop_playback [(0, sampleInfo)] 0 (Except.error (5 : Nat))
      = (.error (.raisedBy 5), [(0, sampleInfo)]) ∧
    (stop_playback [(0, sampleInfo)] 0 (Except.ok () : Except Nat Unit)
        = (.ok (), registryRemove [(0, sampleInfo)] 0) ∧
      registryGet (registryRemove [(0, sampleInfo)] 0) 0 = none ∧
      stop_playback (registryRemove [(0, sampleInfo)] 0) 0 (Except.ok () : Except Nat Unit)
        = (.error .playbackNotFound, registryRemove [(0, sampleInfo)] 0) ∧
      is_playing (registryRemove [(0, sampleInfo)] 0) 0
        (Except.ok PlaybackState.playing : Except Nat PlaybackState) 0
        = (.ok false, false)) :=
  ⟨(claim_C4_stop_playback [] 0 sampleInfo 5 (Except.ok ())
      (Except.ok PlaybackState.playing) 0 (by simp)).1 rfl,
   (claim_C4_stop_playback [(0, sampleInfo)] 0 sampleInfo 5 (Except.error 5)
      (Except.ok PlaybackState.playing) 0 (by simp)).2.1 rfl,
   (claim_C4_stop_playback [(0, sampleInfo)] 0 sampleInfo 5 (Except.ok ())
      (Except.ok PlaybackState.playing) 0 (by simp)).2.2 rfl⟩

/-- C5: `start_playback` clamps volume and pan, dispatches voice creation,
    and registers the session only after voice creation succeeds: on a
    backend failure the backend's error propagates unchanged and the
    registry is left exactly as it was (no partial registration); on
    success the freshly minted handle is returned, exactly one new record
    is registered under it, and every other handle's lookup is
    unaffected. -/
theorem claim_C5_start_playback {ε : Type} (reg : Registry) (sound : Sound)
    (volume pan : ℚ) (loop : Bool) (e : ε) (voice : VoiceId)
    (nh : HandleId) (now : ℚ) (hfresh : registryGet reg nh = none) :
    start_playback reg sound volume pan loop (Except.error e) nh now
      = (.error (.raisedBy e), reg,
         { volume := validate_volume volume, pan := validate_pan pan, loop := loop }) ∧
    (start_playback reg sound volume pan loop (Except.ok voice : Except ε VoiceId) nh now).1
      = .ok nh ∧
    registryGet (start_playback reg sound volume pan loop
        (Except.ok voice : Except ε VoiceId) nh now).2.1 nh
      = some { handleId := nh, voice := voice, sound := sound,
               params := { volume := validate_volume volume,
                           pan := validate_pan pan, loop := loop },
               startTime := now } ∧
    (start_playback reg sound volume pan loop
        (Except.ok voice : Except ε VoiceId) nh now).2.1.length
      = reg.length + 1 ∧
    ∀ h2, h2 ≠ nh →
      registryGet (start_playback reg sound volume pan loop
        (Except.ok voice : Except ε VoiceId) nh now).2.1 h2
        = registryGet reg h2 :=
  ⟨rfl, rfl, registryGet_register_self reg nh _,
   registryRegister_length reg nh _ hfresh,
   fun h2 hne => registryGet_register_other reg nh h2 _ hne⟩

/-- C5 witness: voice-creation failure and success evaluated on an empty
    registry with out-of-range volume and pan inputs. -/
theorem claim_C5_start_playback_witness :
    start_playback ([] : Registry) { duration := 1 } 2 (-2) false
        (Except.error (5 : Nat)) 0 0
      = (.error (.raisedBy 5), [],
         { volume := validate_volume 2, pan := validate_pan (-2), loop := false }) ∧
    registryGet (start_playback ([] : Registry) { duration := 1 } 2 (-2) false
        (Except.ok 9 : Except Nat VoiceId) 0 0).2.1 0
      = some { handleId := 0, voice := 9, sound := { duration := 1 },
               params := { volume := validate_volume 2, pan := validate_pan (-2),
                           loop := false },
               startTime := 0 } ∧
    (start_playback ([] : Registry) { duration := 1 } 2 (-2) false
        (Except.ok 9 : Except Nat VoiceId) 0 0).2.1.length = ([] : Registry).length + 1 ∧
    registryGet (start_playback ([] : Registry) { duration := 1 } 2 (-2) false
        (Except.ok 9 : Except Nat VoiceId) 0 0).2.1 1 = registryGet [] 1 :=
  have hc := claim_C5_start_playback ([] : Registry) { duration := 1 } 2 (-2) false
    (5 : Nat) 9 0 0 rfl
  ⟨hc.1, hc.2.2.1, hc.2.2.2.1, hc.2.2.2.2 1 (by decide)⟩

/-- C6: for a registered session whose native state is Playing: when the
    session is non-looping and the elapsed monotonic time since its start
    has met or exceeded the asset's duration, `is_playing` returns false
    despite the native Playing state; when the session is looping, the
    elapsed-time check is not applied and `is_playing` returns true for as
    long as the native state is Playing, whatever the elapsed time. -/
theorem claim_C6_time_based_completion {ε : Type} (reg : Registry)
    (h : HandleId) (info : PlaybackInfo) (now : ℚ)
    (hget : registryGet reg h = some info) :
    (info.params.loop = false → info.sound.duration ≤ now - info.startTime →
      is_playing reg h (Except.ok PlaybackState.playing : Except ε PlaybackState) now
        = (.ok false, true)) ∧
    (info.params.loop = true →
      is_playing reg h (Except.ok PlaybackState.playing : Except ε PlaybackState) now
        = (.ok true, true)) := by
  constructor
  · intro hloop helapsed
    simp [is_playing, hget, hloop, helapsed]
  · intro hloop
    simp [is_playing, hget, hloop]

/-- C6 witness: a 1-second non-looping session queried at t=2 reports
    false although the native state is Playing; a looping session queried
    at t=100 still reports true. -/
theorem claim_C6_time_based_completion_witness :
    is_playing [(0, sampleInfo)] 0
        (Except.ok PlaybackState.playing : Except Nat PlaybackState) 2
      = (.ok false, true) ∧
    is_playing [(0, sampleLoopInfo)] 0
        (Except.ok PlaybackState.playing : Except Nat PlaybackState) 100
      = (.ok true, true) :=
  ⟨(claim_C6_time_based_completion [(0, sampleInfo)] 0 sampleInfo 2 rfl).1
      rfl (by norm_num [sampleInfo]),
   (claim_C6_time_based_completion [(0, sampleLoopInfo)] 0 sampleLoopInfo 100 rfl).2 rfl⟩

/-- C7: on a started engine, `is_playing(handle)` for a handle absent from
    the registry (never registered, fabricated, or already removed)
    returns false, does not raise, and dispatches no native call. -/
theorem claim_C7_unknown_handle {ε : Type} (reg : Registry) (h : HandleId)
    (stateOutcome : Except ε PlaybackState) (now : ℚ)
    (habs : registryGet reg h = none) :
    engine_is_playing true reg h stateOutcome now = (.ok false, false) := by
  simp [engine_is_playing, is_playing, habs]

/-- C7 witness: a fabricated handle on a started engine with one other
    registered session. -/
theorem claim_C7_unknown_handle_witness :
    engine_is_playing true [(0, sampleInfo)] 1
        (Except.ok PlaybackState.playing : Except Nat PlaybackState) 0
      = (.ok false, false) :=
  claim_C7_unknown_handle [(0, sampleInfo)] 1 (Except.ok PlaybackState.playing) 0 rfl

/-- C8: `validate_volume` clamps to the nearer bound of `[0,1]` and leaves
    in-range values unchanged, `validate_pan` likewise over `[-1,1]`,
    neither raises (both are total), and every volume/pan value the
    session service passes onward to the backend (voice-creation params,
    `set_volume`, `set_pan`) is first clamped into these ranges. -/
theorem claim_C8_clamping :
    (∀ v : ℚ, v < 0 → validate_volume v = 0) ∧
    (∀ v : ℚ, 1 < v → validate_volume v = 1) ∧
    (∀ v : ℚ, 0 ≤ v → v ≤ 1 → validate_volume v = v) ∧
    (∀ p : ℚ, p < -1 → validate_pan p = -1) ∧
    (∀ p : ℚ, 1 < p → validate_pan p = 1) ∧
    (∀ p : ℚ, -1 ≤ p → p ≤ 1 → validate_pan p = p) ∧
    (∀ (reg : Registry) (sound : Sound) (volume pan : ℚ) (loop : Bool)
        (co : Except Nat VoiceId) (nh : HandleId) (now : ℚ),
      0 ≤ (start_playback reg sound volume pan loop co nh now).2.2.volume ∧
      (start_playback reg sound volume pan loop co nh now).2.2.volume ≤ 1 ∧
      -1 ≤ (start_playback reg sound volume pan loop co nh now).2.2.pan ∧
      (start_playback reg sound volume pan loop co nh now).2.2.pan ≤ 1) ∧
    (∀ (reg : Registry) (h : HandleId) (volume : ℚ) (so : Except Nat Unit) (v : ℚ),
      (set_volume reg h volume so).2.2 = some v → 0 ≤ v ∧ v ≤ 1) ∧
    (∀ (reg : Registry) (h : HandleId) (pan : ℚ) (so : Except Nat Unit) (p : ℚ),
      (set_pan reg h pan so).2.2 = some p → -1 ≤ p ∧ p ≤ 1) := by
  refine ⟨?_, ?_, ?_, ?_, ?_, ?_, ?_, ?_, ?_⟩
  · intro v hv
    rw [validate_volume, if_pos hv]
  · intro v hv
    rw [validate_volume, if_neg (by linarith), if_pos hv]
  · intro v h0 h1
    rw [validate_volume, if_neg (by linarith), if_neg (by linarith)]
  · intro p hp
    rw [validate_pan, if_pos hp]
  · intro p hp
    rw [validate_pan, if_neg (by linarith), if_pos hp]
  · intro p hm hp
    rw [validate_pan, if_neg (by linarith), if_neg (by linarith)]
  · intro reg sound volume pan loop co nh now
    cases co <;>
      exact ⟨(validate_volume_bounds volume).1, (validate_volume_bounds volume).2,
        (validate_pan_bounds pan).1, (validate_pan_bounds pan).2⟩
  · intro reg h volume so v hv
    cases hget : registryGet reg h with
    | none => simp [set_volume, hget] at hv
    | some info =>
      cases so with
      | error e =>
        simp [set_volume, hget] at hv
        exact hv ▸ validate_volume_bounds volume
      | ok u =>
        simp [set_volume, hget] at hv
        exact hv ▸ validate_volume_bounds volume
  · intro reg h pan so p hp
    cases hget : registryGet reg h with
    | none => simp [set_pan, hget] at hp
    | some info =>
      cases so with
      | error e =>
        simp [set_pan, hget] at hp
        exact hp ▸ validate_pan_bounds pan
      | ok u =>
        simp [set_pan, hget] at hp
        exact hp ▸ validate_pan_bounds pan

/-- C8 witness: the clamping laws and the dispatched-value bounds
    evaluated at concrete inputs. -/
theorem claim_C8_clamping_witness :
    validate_volume (-1) = 0 ∧ validate_volume 2 = 1 ∧
    validate_volume (1 / 2) = 1 / 2 ∧
    validate_pan (-2) = -1 ∧ validate_pan 2 = 1 ∧
    validate_pan (1 / 2) = 1 / 2 ∧
    (0 ≤ (start_playback [] { duration := 1 } 7 (-7) false
        (Except.ok (0 : VoiceId) : Except Nat VoiceId) 0 0).2.2.volume ∧
      (start_playback [] { duration := 1 } 7 (-7) false
        (Except.ok (0 : VoiceId) : Except Nat VoiceId) 0 0).2.2.volume ≤ 1 ∧
      -1 ≤ (start_playback [] { duration := 1 } 7 (-7) false
        (Except.ok (0 : VoiceId) : Except Nat VoiceId) 0 0).2.2.pan ∧
      (start_playback [] { duration := 1 } 7 (-7) false
        (Except.ok (0 : VoiceId) : Except Nat VoiceId) 0 0).2.2.pan ≤ 1) ∧
    (0 ≤ ((3 : ℚ) / 4) ∧ (3 : ℚ) / 4 ≤ 1) ∧
    (-1 ≤ -((3 : ℚ) / 4) ∧ -((3 : ℚ) / 4) ≤ 1) :=
  ⟨claim_C8_clamping.1 (-1) (by norm_num),
   claim_C8_clamping.2.1 2 (by norm_num),
   claim_C8_clamping.2.2.1 (1 / 2) (by norm_num) (by norm_num),
   claim_C8_clamping.2.2.2.1 (-2) (by norm_num),
   claim_C8_clamping.2.2.2.2.1 2 (by norm_num),
   claim_C8_clamping.2.2.2.2.2.1 (1 / 2) (by norm_num) (by norm_num),
   claim_C8_clamping.2.2.2.2.2.2.1 [] { duration := 1 } 7 (-7) false
     (Except.ok 0) 0 0,
   claim_C8_clamping.2.2.2.2.2.2.2.1 [(0, sampleInfo)] 0 (3 / 4)
     (Except.ok ()) (3 / 4) (by norm_num [set_volume, registryGet, validate_volume]),
   claim_C8_clamping.2.2.2.2.2.2.2.2 [(0, sampleInfo)] 0 (-(3 / 4))
     (Except.ok ()) (-(3 / 4)) (by norm_num [set_pan, registryGet, validate_pan])⟩

/-- C9: engine `shutdown()` is idempotent: on a never-started engine it is
    a no-op that returns without raising, takes no collaborator action and
    leaves the state unchanged; and a second `shutdown()` right after a
    first one leaves the state of the first call and performs no action at
    all (the worker, backend and registry are untouched). -/
theorem claim_C9_shutdown_idempotent {ε : Type} (s : LifecycleState)
    (o o2 : Except ε Unit) :
    (s.started = false → shutdown s o = (s, [])) ∧
    shutdown (shutdown s o).1 o2 = ((shutdown s o).1, []) := by
  constructor
  · intro h
    simp [shutdown, h]
  · have h : (shutdown s o).1.started = false := by
      unfold shutdown
      split
      · next hcond =>
        simp only [Bool.not_eq_true'] at hcond
        exact hcond
      · split <;> rfl
    generalize hs2 : (shutdown s o).1 = s2 at h ⊢
    simp [shutdown, h]

/-- C9 witness: shutdown of a never-started engine is the identity with an
    empty action trace. -/
theorem claim_C9_shutdown_idempotent_witness :
    shutdown { started := false, hasWorker := false } (Except.ok () : Except Nat Unit)
      = ({ started := false, hasWorker := false }, []) :=
  (claim_C9_shutdown_idempotent { started := false, hasWorker := false }
    (Except.ok ()) (Except.ok ())).1 rfl

end XAudio2Py
